import Mathlib

/-!
Verification of the `pixiretro` Conan recipe (`conanfile.py`).

The recipe's decision logic is embedded shallowly:
  * `Settings` mirrors `settings = "os", "compiler", "build_type", "arch"`;
    `build_type` is `Option String` because the recipe reads it with
    `get_safe("build_type", default="Release")`.
  * `Options` mirrors `options = {"shared": ..., "fPIC": ...}`; `fPIC` is
    `Option Bool` because `config_options` may delete it (`del self.options.fPIC`).
  * `config_options`, `build_requirements` and `package_info` are translated
    method-for-method.  Python local-variable lookup of a name that was never
    assigned on the executed path raises `NameError`; this is modelled by
    `readLocal` over an `Option`-valued binding, so `package_info` returns
    `Except String CppInfo`.
-/

structure Settings where
  os : String
  compiler : String
  build_type : Option String
  arch : String
  deriving Repr, DecidableEq

structure Options where
  shared : Bool
  fPIC : Option Bool
  deriving Repr, DecidableEq

/-- `default_options = {"shared": False, "fPIC": True}` -/
def default_options : Options := { shared := false, fPIC := some true }

structure CppInfo where
  includedirs : List String
  libdirs : List String
  bindirs : List String
  libs : List String
  deriving Repr, DecidableEq

/-- Python semantics of reading a local variable: a name that was never
assigned on the executed path raises `NameError`. -/
def readLocal {α : Type} (name : String) (v : Option α) : Except String α :=
  match v with
  | some x => Except.ok x
  | none => Except.error ("NameError: name " ++ name ++ " is not defined")

/-- `config_options`: on Windows, `del self.options.fPIC`. -/
def config_options (s : Settings) (o : Options) : Options :=
  if s.os = "Windows" then { o with fPIC := none } else o

/-- `build_requirements`: the six `self.build_requires(...)` reference
strings, in call order.  The method reads nothing from settings/options. -/
def build_requirements (_s : Settings) (_o : Options) : List String :=
  [ "tinyxml2/9.0.0"
  , "opengl/system"
  , "sdl/2.0.20@ianmurfinxyz/stable"
  , "sdl-image/2.0.5@ianmurfinxyz/stable"
  , "sdl-mixer/2.0.4@ianmurfinxyz/stable"
  , "sdl-ttf/2.0.18@ianmurfinxyz/stable" ]

/-- `package_info`.  The local the source calls `postfix` is named `sfx`
here.  On the Windows path the local `static` is assigned; on the Linux
path it is read but never assigned, a `NameError` in Python. -/
def package_info (s : Settings) (o : Options) : Except String CppInfo :=
  let build_type := s.build_type.getD "Release"
  let sfx := if build_type = "Debug" then "d" else ""
  if s.os = "Windows" then
    let static : Option String := some (if o.shared then "-static" else "")
    match readLocal "static" static with
    | Except.error e => Except.error e
    | Except.ok st =>
        Except.ok ⟨["include"], ["lib"], ["bin"],
          ["PixiRetro" ++ st ++ sfx ++ ".lib"]⟩
  else if s.os = "Linux" then
    let extension := if o.shared then "so" else "a"
    match readLocal "static" (none : Option String) with
    | Except.error e => Except.error e
    | Except.ok st =>
        Except.ok ⟨["include"], ["lib"], ["bin"],
          ["PixiRetro" ++ st ++ sfx ++ "." ++ extension]⟩
  else
    Except.ok ⟨["include"], ["lib"], ["bin"], []⟩

/-- Platform convention: Windows static-library extension. -/
def windowsStaticExt : String := ".lib"

/-- Platform convention: Windows dynamic-library extension. -/
def windowsDynamicExt : String := ".dll"

/-- The fixed static-companion marker used by the recipe. -/
def staticMarker : String := "-static"

/-- Extension test on file names, by character list (kernel-reducible). -/
def strEndsWith (s suf : String) : Bool := suf.data.isSuffixOf s.data

/-- Whether `pat` occurs as a contiguous run inside `l`. -/
def containsSeq (pat : List Char) : List Char → Bool
  | [] => pat.isEmpty
  | c :: cs => pat.isPrefixOf (c :: cs) || containsSeq pat cs

/-- Whether a library file name carries the static-companion marker. -/
def hasStaticMarker (name : String) : Bool := containsSeq staticMarker.data name.data

/-- Stem of a library file name: the characters before the first dot. -/
def libStem (name : String) : List Char := name.data.takeWhile (fun c => c != '.')

/-- Whether a library file name carries the fixed debug suffix `d`
(immediately before the extension dot). -/
def carriesDebugSuffix (name : String) : Bool := (libStem name).getLast? == some 'd'

/-- Version component of a Conan reference `name/version[@user/channel]`. -/
def refVersion (ref : String) : String :=
  String.mk (((ref.data.dropWhile (fun c => c != '/')).drop 1).takeWhile (fun c => c != '@'))

/-- An exact version pin: a nonempty concrete literal, not a version range
and not a fallback-to-latest. -/
def isExactVersion (v : String) : Bool :=
  !(v.data.isEmpty) && v.data != "latest".data && !(v.data.contains '[')
    && !(v.data.contains ']') && !(v.data.contains '*')

/-- Closed-form case analysis of `package_info`. -/
lemma package_info_eq (s : Settings) (o : Options) :
    package_info s o =
      if s.os = "Windows" then
        Except.ok ⟨["include"], ["lib"], ["bin"],
          ["PixiRetro" ++ (if o.shared then "-static" else "")
            ++ (if s.build_type.getD "Release" = "Debug" then "d" else "")
            ++ ".lib"]⟩
      else if s.os = "Linux" then
        Except.error "NameError: name static is not defined"
      else
        Except.ok ⟨["include"], ["lib"], ["bin"], []⟩ := by
  unfold package_info readLocal
  rfl

/-- Windows inputs: the single emitted name, in closed form. -/
lemma package_info_windows (c a : String) (bt : Option String) (o : Options) :
    package_info ⟨"Windows", c, bt, a⟩ o =
      Except.ok ⟨["include"], ["lib"], ["bin"],
        ["PixiRetro" ++ (if o.shared then "-static" else "")
          ++ (if bt.getD "Release" = "Debug" then "d" else "") ++ ".lib"]⟩ := by
  rw [package_info_eq]
  rfl

/-- C1 (corrected at an input): for Settings{os=Windows, build_type=Release}
with shared=true, the emitted name is `PixiRetro-static.lib`, which does not
end in the platform dynamic-library extension — refuting the claim that the
shared case uses the dynamic extension. -/
theorem win_shared_dynamic_ext_cex :
    (package_info ⟨"Windows", "msvc", some "Release", "x86_64"⟩
        ⟨true, none⟩).map CppInfo.libs = Except.ok ["PixiRetro-static.lib"]
    ∧ strEndsWith "PixiRetro-static.lib" windowsDynamicExt = false := by
  exact ⟨rfl, by decide⟩

/-- C1 (amended): for every Settings with os Windows, the emitted library
file name carries the platform static-library extension whether or not the
shared option is set (never the dynamic extension), and carries the fixed
static-companion marker exactly when shared is set. -/
theorem win_lib_static_ext_and_marker (c a : String) (bt : Option String)
    (sh : Bool) (fp : Option Bool) :
    ∃ name, (package_info ⟨"Windows", c, bt, a⟩ ⟨sh, fp⟩).map CppInfo.libs
        = Except.ok [name]
      ∧ strEndsWith name windowsStaticExt = true
      ∧ strEndsWith name windowsDynamicExt = false
      ∧ hasStaticMarker name = sh := by
  rw [package_info_windows]
  by_cases h : (Option.getD bt "Release") = "Debug"
  · rw [if_pos h]
    cases sh
    · exact ⟨"PixiRetrod.lib", rfl, by decide, by decide, by decide⟩
    · exact ⟨"PixiRetro-staticd.lib", rfl, by decide, by decide, by decide⟩
  · rw [if_neg h]
    cases sh
    · exact ⟨"PixiRetro.lib", rfl, by decide, by decide, by decide⟩
    · exact ⟨"PixiRetro-static.lib", rfl, by decide, by decide, by decide⟩

/-- C2 (code bug): for Settings{os=Linux, build_type=Debug} with shared=true
the recipe does not produce a libs list at all — it raises `NameError` on
the unassigned local `static` — instead of the expected single entry with
the dynamic extension and the debug suffix. -/
theorem linux_debug_shared_name_error :
    package_info ⟨"Linux", "gcc", some "Debug", "x86_64"⟩ ⟨true, some true⟩
      = Except.error "NameError: name static is not defined" := rfl

/-- C3: for every Settings with os Linux, any build variant and any options,
`package_info` hits the read of the never-assigned local `static` and
returns the error branch; no `CppInfo` is produced. -/
theorem linux_branch_always_name_error (c a : String) (bt : Option String)
    (o : Options) :
    package_info ⟨"Linux", c, bt, a⟩ o
      = Except.error "NameError: name static is not defined" := by
  rw [package_info_eq]
  rfl

/-- C4: on Windows, `config_options` removes `fPIC` entirely from the
option set, and the later phases (`package_info`, `build_requirements`)
never read it: their results are unchanged under any two values of it. -/
theorem windows_fpic_removed_and_unread (c a : String) (bt : Option String)
    (o : Options) (fp fp2 : Option Bool) :
    (config_options ⟨"Windows", c, bt, a⟩ o).fPIC = none
    ∧ package_info ⟨"Windows", c, bt, a⟩ { shared := o.shared, fPIC := fp }
        = package_info ⟨"Windows", c, bt, a⟩ { shared := o.shared, fPIC := fp2 }
    ∧ build_requirements ⟨"Windows", c, bt, a⟩ { shared := o.shared, fPIC := fp }
        = build_requirements ⟨"Windows", c, bt, a⟩ { shared := o.shared, fPIC := fp2 } := by
  refine ⟨?_, rfl, rfl⟩
  simp [config_options]

/-- C5: whenever `package_info` returns a descriptor, its libs list has no
duplicate entries (it is empty or a singleton on every returning path). -/
theorem libs_nodup (s : Settings) (o : Options) (cpp : CppInfo)
    (h : package_info s o = Except.ok cpp) : cpp.libs.Nodup := by
  rw [package_info_eq] at h
  split at h
  · obtain rfl := Except.ok.inj h
    exact List.nodup_singleton _
  · split at h
    · exact Except.noConfusion h
    · obtain rfl := Except.ok.inj h
      exact List.nodup_nil

/-- C5 witness at Settings{os=Windows, build_type=Debug}, shared=true. -/
theorem libs_nodup_witness :
    (⟨["include"], ["lib"], ["bin"], ["PixiRetro-staticd.lib"]⟩ : CppInfo).libs.Nodup :=
  libs_nodup ⟨"Windows", "msvc", some "Debug", "x86_64"⟩ ⟨true, none⟩ _ rfl

/-- C6: whenever `package_info` returns a descriptor, a debug-class build
variant puts the fixed debug suffix on every emitted name, and a
release-class build variant puts it on none. -/
theorem debug_suffix_iff_variant (s : Settings) (o : Options) (cpp : CppInfo)
    (h : package_info s o = Except.ok cpp) :
    (s.build_type.getD "Release" = "Debug" →
      cpp.libs.all carriesDebugSuffix = true)
    ∧ (s.build_type.getD "Release" = "Release" →
      (cpp.libs.all fun n => !(carriesDebugSuffix n)) = true) := by
  obtain ⟨sh, fp⟩ := o
  rw [package_info_eq] at h
  split at h
  · obtain rfl := Except.ok.inj h
    constructor
    · intro hd
      rw [hd]
      cases sh <;> rfl
    · intro hr
      rw [hr]
      cases sh <;> rfl
  · split at h
    · exact Except.noConfusion h
    · obtain rfl := Except.ok.inj h
      exact ⟨fun _ => rfl, fun _ => rfl⟩

/-- C6 witness at Settings{os=Windows, build_type=Debug}, shared=false. -/
theorem debug_suffix_iff_variant_witness :
    package_info ⟨"Windows", "msvc", some "Debug", "x86_64"⟩ ⟨false, some true⟩
      = Except.ok ⟨["include"], ["lib"], ["bin"], ["PixiRetrod.lib"]⟩
    ∧ (((some "Debug" : Option String).getD "Release" = "Debug" →
        (["PixiRetrod.lib"].all carriesDebugSuffix) = true)
      ∧ ((some "Debug" : Option String).getD "Release" = "Release" →
        (["PixiRetrod.lib"].all fun n => !(carriesDebugSuffix n)) = true)) :=
  ⟨rfl, debug_suffix_iff_variant ⟨"Windows", "msvc", some "Debug", "x86_64"⟩
    ⟨false, some true⟩ _ rfl⟩

/-- C7: `build_requirements` is a deterministic function of its inputs —
identical Settings and Options give element-for-element identical,
identically ordered requirement lists. -/
theorem build_requirements_deterministic (s s2 : Settings) (o o2 : Options)
    (hs : s = s2) (ho : o = o2) :
    build_requirements s o = build_requirements s2 o2 := by
  subst hs; subst ho; rfl

/-- C7 witness at a concrete pair of identical inputs. -/
theorem build_requirements_deterministic_witness :
    ((⟨"Linux", "gcc", some "Release", "x86_64"⟩ : Settings)
        = ⟨"Linux", "gcc", some "Release", "x86_64"⟩)
    ∧ (default_options = default_options)
    ∧ build_requirements ⟨"Linux", "gcc", some "Release", "x86_64"⟩ default_options
        = build_requirements ⟨"Linux", "gcc", some "Release", "x86_64"⟩ default_options :=
  ⟨rfl, rfl, build_requirements_deterministic _ _ _ _ rfl rfl⟩

/-- C8: every reference produced by `build_requirements` carries an exact
version pin — a nonempty concrete literal, not a range and not latest. -/
theorem build_requirements_exact_versions (s : Settings) (o : Options)
    (r : String) (h : r ∈ build_requirements s o) :
    isExactVersion (refVersion r) = true := by
  simp only [build_requirements, List.mem_cons, List.not_mem_nil, or_false] at h
  rcases h with rfl | rfl | rfl | rfl | rfl | rfl <;> decide

/-- C8 witness on the first produced reference. -/
theorem build_requirements_exact_versions_witness :
    ("tinyxml2/9.0.0" ∈
        build_requirements ⟨"Linux", "gcc", some "Release", "x86_64"⟩ default_options)
    ∧ isExactVersion (refVersion "tinyxml2/9.0.0") = true :=
  ⟨by decide, build_requirements_exact_versions
    ⟨"Linux", "gcc", some "Release", "x86_64"⟩ default_options _ (by decide)⟩

/-- C9: whenever `package_info` returns a descriptor, its include, library
and binary directory lists are the fixed values `["include"]`, `["lib"]`
and `["bin"]`, whatever the Settings and Options. -/
theorem fixed_dirs (s : Settings) (o : Options) (cpp : CppInfo)
    (h : package_info s o = Except.ok cpp) :
    cpp.includedirs = ["include"] ∧ cpp.libdirs = ["lib"]
      ∧ cpp.bindirs = ["bin"] := by
  rw [package_info_eq] at h
  split at h
  · obtain rfl := Except.ok.inj h
    exact ⟨rfl, rfl, rfl⟩
  · split at h
    · exact Except.noConfusion h
    · obtain rfl := Except.ok.inj h
      exact ⟨rfl, rfl, rfl⟩

/-- C9 witness at Settings{os=Macos}. -/
theorem fixed_dirs_witness :
    package_info ⟨"Macos", "clang", none, "armv8"⟩ default_options
      = Except.ok ⟨["include"], ["lib"], ["bin"], []⟩
    ∧ ((⟨["include"], ["lib"], ["bin"], []⟩ : CppInfo).includedirs = ["include"]
      ∧ (⟨["include"], ["lib"], ["bin"], []⟩ : CppInfo).libdirs = ["lib"]
      ∧ (⟨["include"], ["lib"], ["bin"], []⟩ : CppInfo).bindirs = ["bin"]) :=
  ⟨rfl, fixed_dirs ⟨"Macos", "clang", none, "armv8"⟩ default_options _ rfl⟩

/-- C10: for every Settings with os Windows and shared set, `package_info`
lists exactly one library file name, and that single entry carries the
static-companion marker — never a dynamic file plus a separate companion. -/
theorem win_shared_single_static_entry (c a : String) (bt : Option String)
    (fp : Option Bool) :
    ∃ name, (package_info ⟨"Windows", c, bt, a⟩ ⟨true, fp⟩).map CppInfo.libs
        = Except.ok [name]
      ∧ hasStaticMarker name = true := by
  rw [package_info_windows]
  by_cases h : (Option.getD bt "Release") = "Debug"
  · rw [if_pos h]
    exact ⟨"PixiRetro-staticd.lib", rfl, by decide⟩
  · rw [if_neg h]
    exact ⟨"PixiRetro-static.lib", rfl, by decide⟩
